import Mathlib

/-!
Shallow embedding of the QASystem repository (utility.py, ingestion.py,
retrievalandgenerator.py).  External collaborators (the Pinecone document
store, the Haystack pipeline framework, the embedding model, the filesystem
and the PDF converter) are modelled as oracles supplied through "world"
records; Python exceptions are modelled with `Except Err`.
-/

namespace QASystem

/-- Python exception values that flow through the repository.  The repository
itself raises only `ValueError` (pinecone_config, unsupported file type) and
`FileNotFoundError`; `external` stands for any exception raised inside a
third-party call (file IO, converter, pipeline run, warm-up, store
constructor).  `ingestionStage` is modelled from the spec: the spec's
`IngestionError` carrying the name of the failed stage; no code in the
repository constructs it. -/
inductive Err where
  | valueError (msg : String)
  | fileNotFoundError (msg : String)
  | external (msg : String)
  | ingestionStage (stage : String) (msg : String)
deriving DecidableEq

/-- Python str(e) for an exception: its message. -/
def Err.str : Err → String
  | .valueError m => m
  | .fileNotFoundError m => m
  | .external m => m
  | .ingestionStage _ m => m

/-- Modelled from the spec: an error value "identifies which stage failed"
exactly when it is the spec's stage-tagged IngestionError. -/
def Err.identifiesFailedStage : Err → Bool
  | .ingestionStage _ _ => true
  | _ => false

/-- Truthiness of `os.getenv(name)` in Python: `not os.getenv(...)` is true
when the variable is unset or set to the empty string. -/
def getenvTruthy : Option String → Bool
  | none => false
  | some s => !(s == "")

/-- Python str.lower(): lower-case every character. -/
def pyLower (s : String) : String :=
  ⟨s.data.map Char.toLower⟩

/-- Python str.strip(): remove leading and trailing whitespace. -/
def pyStrip (s : String) : String :=
  ⟨((s.data.dropWhile Char.isWhitespace).reverse.dropWhile Char.isWhitespace).reverse⟩

/-- A Haystack Document: content plus string metadata (assoc list standing
for the Python dict). -/
structure Document where
  content : String
  meta : List (String × String)
deriving DecidableEq

/-- Overwrite-or-insert for the metadata dict (doc.meta[k] = v). -/
def insertKV : List (String × String) → String → String → List (String × String)
  | [], k, v => [(k, v)]
  | (k', v') :: rest, k, v =>
      if k' == k then (k, v) :: rest else (k', v') :: insertKV rest k v

/-- Python `doc.meta[k] = v`. -/
def setMeta (d : Document) (k v : String) : Document :=
  { d with meta := insertKV d.meta k v }

/-- Arguments handed to the PineconeDocumentStore constructor. -/
structure StoreArgs where
  index : String
  namespc : String
  dimension : Nat
  metric : String
deriving DecidableEq

/-- Opaque handle to a constructed PineconeDocumentStore. -/
structure Store where
  id : Nat
deriving DecidableEq

/-- Opaque handle to a constructed Haystack Pipeline. -/
structure Pipeline where
  id : Nat
deriving DecidableEq

/-- utility.pinecone_config.  `key` is os.getenv("PINECONE_API_KEY");
`mkStore` is the external PineconeDocumentStore constructor (which may itself
raise).  The source raises ValueError before touching the constructor when
the key is absent or empty. -/
def pinecone_config (key : Option String) (mkStore : StoreArgs → Except Err Store)
    (index_name : String) (namespc : String) (dimension : Nat) (metric : String) :
    Except Err Store :=
  if getenvTruthy key then
    mkStore ⟨index_name, namespc, dimension, metric⟩
  else
    .error (.valueError
      "PINECONE_API_KEY not found. Please set it in your .env file or environment variables.")

/-! Ingestion module (ingestion.py). -/

deriving instance DecidableEq for Except

/-- One direct child of a directory, as seen by
load_documents_from_directory: its path pieces plus the outcome of the two
possible external loads (text read, PDF conversion). -/
structure FileEntry where
  path : String
  name : String
  isFile : Bool
  suffix : String
  readText : Except Err String
  pdfDocs : Except Err (List Document)
deriving DecidableEq

/-- The loop body of load_documents_from_directory for one directory entry:
files whose lower-cased suffix is not in `file_types` are skipped; a load
failure is caught and contributes nothing (the batch continues). -/
def loadEntry (file_types : List String) (e : FileEntry) : List Document :=
  if e.isFile && file_types.contains (pyLower e.suffix) then
    if (pyLower e.suffix) == ".txt" then
      match e.readText with
      | .ok content => [⟨content, [("source", e.path), ("filename", e.name)]⟩]
      | .error _ => []
    else if (pyLower e.suffix) == ".pdf" then
      match e.pdfDocs with
      | .ok docs => docs.map (fun d => setMeta (setMeta d "source" e.path) "filename" e.name)
      | .error _ => []
    else []
  else []

/-- ingestion.load_documents_from_directory.  `dirExists` is
directory.exists(); `entries` the direct children from directory.iterdir();
`file_types` defaults to ['.txt', '.pdf']. -/
def load_documents_from_directory (directory_path : String) (dirExists : Bool)
    (entries : List FileEntry) (file_types : Option (List String)) :
    Except Err (List Document) :=
  let ft := file_types.getD [".txt", ".pdf"]
  if !dirExists then
    .error (.fileNotFoundError ("Directory not found: " ++ directory_path))
  else
    .ok ((entries.map (loadEntry ft)).flatten)

/-- The source path handed to ingest_documents: its Path attributes plus the
outcomes of the external loads used in the single-file branches, and the
directory listing used in the directory branch. -/
structure SourceInfo where
  pathStr : String
  name : String
  suffix : String
  isFile : Bool
  isDir : Bool
  readText : Except Err String
  pdfDocs : Except Err (List Document)
  entries : List FileEntry
deriving DecidableEq

/-- Output dict of the ingestion pipeline run: stage name to stage-output
dict mapping keys to counts ("writer" / "documents_written"). -/
def IngestRunResult := List (String × List (String × Nat))

/-- Result dict of ingest_documents. -/
structure IngestResult where
  status : String
  message : String
  count : Nat
deriving DecidableEq

/-- External world of one ingest_documents call: the credential, the store
constructor, the source path, the optional file_types argument, and the
behaviour of the embedder warm-up and of the ingestion pipeline run. -/
structure IngestWorld where
  pineconeKey : Option String
  mkStore : StoreArgs → Except Err Store
  source : SourceInfo
  file_types : Option (List String)
  warmUp : Except Err Unit
  runPipeline : List Document → Except Err IngestRunResult

/-- The document-loading phase of ingest_documents (lines 138-161): single
.txt file, single .pdf file, unsupported single file, directory, or
not-found. -/
def loadStage (w : IngestWorld) : Except Err (List Document) :=
  let source := w.source
  if source.isFile then
    if (pyLower source.suffix) == ".txt" then
      match source.readText with
      | .error e => .error e
      | .ok content =>
          .ok [⟨content, [("source", source.pathStr), ("filename", source.name)]⟩]
    else if (pyLower source.suffix) == ".pdf" then
      match source.pdfDocs with
      | .error e => .error e
      | .ok docs =>
          .ok (docs.map (fun d =>
            setMeta (setMeta d "source" source.pathStr) "filename" source.name))
    else .error (.valueError ("Unsupported file type: " ++ source.suffix))
  else if source.isDir then
    load_documents_from_directory source.pathStr source.isDir source.entries w.file_types
  else .error (.fileNotFoundError ("Source path not found: " ++ source.pathStr))

/-- ingestion.ingest_documents: resolve the store, load documents, short
circuit on an empty batch, warm up the embedder, run the pipeline, and read
the written count (defaulting to the number of loaded documents when the
writer output carries no "documents_written" key).  No exception raised by
any phase is caught here. -/
def ingest_documents (w : IngestWorld) : Except Err IngestResult :=
  match pinecone_config w.pineconeKey w.mkStore "quickstart" "default" 768 "cosine" with
  | .error e => .error e
  | .ok _store =>
    match loadStage w with
    | .error e => .error e
    | .ok documents =>
      if documents.isEmpty then
        .ok ⟨"warning", "No documents found to ingest.", 0⟩
      else
        match w.warmUp with
        | .error e => .error e
        | .ok _ =>
          match w.runPipeline documents with
          | .error e => .error e
          | .ok result =>
            let written_count :=
              ((List.lookup "writer" result).getD []
                |> List.lookup "documents_written").getD documents.length
            .ok ⟨"success",
                 "Ingested " ++ toString written_count ++ " document chunks.",
                 written_count⟩

/-! Retrieval and generation module (retrievalandgenerator.py). -/

/-- External world of the RAG pipeline singleton: the credential, the store
constructor, create_rag_pipeline (whose body is entirely third-party
component construction) and the embedder warm-up. -/
structure RagWorld where
  pineconeKey : Option String
  mkStore : StoreArgs → Except Err Store
  createRagPipeline : Store → Except Err Pipeline
  warmUp : Pipeline → Except Err Unit

/-- The module-level mutable state of retrievalandgenerator.py: the
`_rag_pipeline` and `_document_store` globals, instrumented with counters for
completed pipeline constructions and pipeline runs. -/
structure RagState where
  rag_pipeline : Option Pipeline
  document_store : Option Store
  constructions : Nat
  runs : Nat
deriving DecidableEq

/-- The state at process start: both globals are None. -/
def initState : RagState := ⟨none, none, 0, 0⟩

/-- retrievalandgenerator.get_rag_pipeline: return the cached pipeline, or on
a cache miss resolve the store, construct the pipeline, and warm up the
embedder.  Assignments to the globals happen in source order, so a warm-up
failure still leaves the freshly built pipeline cached. -/
def get_rag_pipeline (w : RagWorld) (s : RagState) : Except Err Pipeline × RagState :=
  match s.rag_pipeline with
  | some p => (.ok p, s)
  | none =>
    match pinecone_config w.pineconeKey w.mkStore "quickstart" "default" 768 "cosine" with
    | .error e => (.error e, s)
    | .ok store =>
      let s1 := { s with document_store := some store }
      match w.createRagPipeline store with
      | .error e => (.error e, s1)
      | .ok p =>
        let s2 := { s1 with rag_pipeline := some p, constructions := s1.constructions + 1 }
        match w.warmUp p with
        | .error e => (.error e, s2)
        | .ok _ => (.ok p, s2)

/-- Output dict of the RAG pipeline run: stage name to stage-output dict
mapping keys to reply lists ("generator" / "replies"). -/
def QueryRunResult := List (String × List (String × List String))

/-- External world of a get_result call: the singleton world plus the
behaviour of pipeline.run on a given pipeline and question. -/
structure QueryWorld where
  rag : RagWorld
  run : Pipeline → String → Except Err QueryRunResult

/-- The body of the try-block of get_result (lines 133-151): obtain the
pipeline, run it, and extract the answer from the result dict.  The `runs`
counter records that pipeline.run was invoked. -/
def get_result_body (w : QueryWorld) (s : RagState) (question : String) :
    Except Err String × RagState :=
  match get_rag_pipeline w.rag s with
  | (.error e, s1) => (.error e, s1)
  | (.ok p, s1) =>
    let s2 := { s1 with runs := s1.runs + 1 }
    match w.run p question with
    | .error e => (.error e, s2)
    | .ok result =>
      if result.isEmpty then
        (.ok "An error occurred while processing your question.", s2)
      else
        match List.lookup "generator" result with
        | none => (.ok "An error occurred while processing your question.", s2)
        | some gen =>
          match (List.lookup "replies" gen).getD [] with
          | [] => (.ok "I couldn't generate an answer. Please try again.", s2)
          | reply :: _ => (.ok reply, s2)

/-- retrievalandgenerator.get_result: short-circuit on an empty or
whitespace-only question, then run the try-block; any exception it raises is
caught and rendered as "An error occurred: " followed by str(e). -/
def get_result (w : QueryWorld) (s : RagState) (question : String) :
    Except Err String × RagState :=
  if question == "" || pyStrip question == "" then
    (.ok "Please provide a valid question.", s)
  else
    match get_result_body w s question with
    | (.ok answer, s1) => (.ok answer, s1)
    | (.error e, s1) => (.ok ("An error occurred: " ++ e.str), s1)

/-- A sequence of get_rag_pipeline calls, one per listed world, threading the
module state. -/
def run_get_calls (ws : List RagWorld) (s : RagState) : RagState :=
  ws.foldl (fun st w => (get_rag_pipeline w st).2) s

/-! Concrete instances used to exercise the model. -/

/-- A concrete store handle. -/
def store0 : Store := ⟨0⟩

/-- A concrete pipeline handle. -/
def pipe0 : Pipeline := ⟨0⟩

/-- A RAG world in which every external call succeeds. -/
def okRagWorld : RagWorld :=
  ⟨some "key", fun _ => .ok store0, fun _ => .ok pipe0, fun _ => .ok ()⟩

/-- A query world whose pipeline run always returns the given outcome. -/
def constQueryWorld (r : Except Err QueryRunResult) : QueryWorld :=
  ⟨okRagWorld, fun _ _ => r⟩

/-- The module state after a successful first construction. -/
def readyState : RagState := ⟨some pipe0, some store0, 1, 0⟩

/-- A source path that is an existing .txt file whose read succeeds. -/
def txtSource : SourceInfo :=
  ⟨"/data/a.txt", "a.txt", ".txt", true, false, .ok "hello world",
   .error (.external "unused"), []⟩

/-- A source path that exists neither as a file nor as a directory. -/
def missingSource : SourceInfo :=
  ⟨"/nonexistent/path", "path", "", false, false, .error (.external "unused"),
   .error (.external "unused"), []⟩

/-- An ingestion world whose pipeline run raises a generic exception. -/
def stageFailWorld : IngestWorld :=
  ⟨some "key", fun _ => .ok store0, txtSource, none, .ok (),
   fun _ => .error (.external "boom")⟩

/-- An ingestion world pointed at a nonexistent source path. -/
def missingPathWorld : IngestWorld :=
  ⟨some "key", fun _ => .ok store0, missingSource, none, .ok (), fun _ => .ok []⟩

/-- An ingestion world with the credential unset and a nonexistent source. -/
def noKeyWorld : IngestWorld :=
  ⟨none, fun _ => .ok store0, missingSource, none, .ok (), fun _ => .ok []⟩

/-- An ingestion world whose writer output carries no "documents_written"
key. -/
def noCountWorld : IngestWorld :=
  ⟨some "key", fun _ => .ok store0, txtSource, none, .ok (),
   fun _ => .ok [("writer", [])]⟩

/-- A directory entry: a loadable .txt file. -/
def goodTxt : FileEntry :=
  ⟨"/d/a.txt", "a.txt", true, ".txt", .ok "alpha", .error (.external "unused")⟩

/-- A directory entry with a disallowed extension. -/
def badMd : FileEntry :=
  ⟨"/d/b.md", "b.md", true, ".md", .ok "beta", .error (.external "unused")⟩

/-- A directory entry whose text read raises. -/
def failTxt : FileEntry :=
  ⟨"/d/c.txt", "c.txt", true, ".txt", .error (.external "io fail"),
   .error (.external "unused")⟩

/-- A directory entry load "raises" when the branch taken for its suffix has
a failing external load. -/
def entryLoadFails (e : FileEntry) : Bool :=
  ((pyLower e.suffix) == ".txt" && !e.readText.isOk) ||
  ((pyLower e.suffix) == ".pdf" && !e.pdfDocs.isOk)

/-- Invariant tying the construction counter to the cache: an empty cache
means no completed construction, and at most one construction ever
completes. -/
def cacheInv (s : RagState) : Prop :=
  s.constructions ≤ 1 ∧ (s.rag_pipeline = none → s.constructions = 0)

/-! Helper lemmas. -/

/-- A cache hit returns the cached pipeline and leaves the state untouched. -/
lemma get_rag_pipeline_cached (w : RagWorld) (s : RagState) (p : Pipeline)
    (h : s.rag_pipeline = some p) : get_rag_pipeline w s = (.ok p, s) := by
  unfold get_rag_pipeline
  rw [h]

/-- One get_rag_pipeline call preserves the cache invariant. -/
lemma get_rag_pipeline_step_inv (w : RagWorld) (s : RagState) (h : cacheInv s) :
    cacheInv (get_rag_pipeline w s).2 := by
  unfold cacheInv at h ⊢
  rcases hc : s.rag_pipeline with _ | p
  · have h0 : s.constructions = 0 := h.2 hc
    rcases hpc : pinecone_config w.pineconeKey w.mkStore "quickstart" "default" 768 "cosine"
      with e | store
    · simp [get_rag_pipeline, hc, hpc, h0]
    · rcases hcr : w.createRagPipeline store with e | p
      · simp [get_rag_pipeline, hc, hpc, hcr, h0]
      · rcases hwu : w.warmUp p with e | u <;>
          simp [get_rag_pipeline, hc, hpc, hcr, hwu, h0]
  · simpa [get_rag_pipeline, hc] using h

/-- When the cache holds a pipeline, the try-block of get_result leaves the
state unchanged apart from recording one pipeline run. -/
lemma get_result_body_cached_snd (w : QueryWorld) (s : RagState) (q : String)
    (p : Pipeline) (h : s.rag_pipeline = some p) :
    (get_result_body w s q).2 = { s with runs := s.runs + 1 } := by
  unfold get_result_body
  rw [get_rag_pipeline_cached w.rag s p h]
  rcases hr : w.run p q with e | result
  · simp only [hr]
  · simp only [hr]
    split
    · rfl
    · rcases hg : List.lookup "generator" result with _ | gen
      · simp [hg]
      · rcases hrep : (List.lookup "replies" gen).getD [] with _ | ⟨a, tl⟩ <;>
          simp [hg, hrep]

/-- A sequence of get_rag_pipeline calls preserves the cache invariant. -/
lemma run_get_calls_inv (ws : List RagWorld) (s : RagState) (h : cacheInv s) :
    cacheInv (run_get_calls ws s) := by
  induction ws generalizing s with
  | nil => exact h
  | cons w ws ih => exact ih _ (get_rag_pipeline_step_inv w s h)

/-! Theorems about the claims. -/

/-- C1: for every question string and any behaviour of pipeline construction,
retrieval and generation (including every exception they can raise),
get_result catches the exception and returns a string to its caller; it
never propagates an exception. -/
theorem get_result_never_raises (w : QueryWorld) (s : RagState) (q : String) :
    ((get_result w s q).1).isOk = true := by
  unfold get_result
  split
  · rfl
  · rcases h : get_result_body w s q with ⟨r, s1⟩
    cases r <;> rfl

/-- C2: the RAG pipeline is constructed at most once per process.  A cache
hit returns the identical cached instance with the state untouched; the
first successful call resolves the store, constructs the pipeline and warms
up the embedder, recording exactly one construction; any sequence of calls
from the initial state completes at most one construction; and no operation
(get_rag_pipeline or get_result) ever resets the cache to uninitialized. -/
theorem rag_pipeline_constructed_at_most_once :
    (∀ (w : RagWorld) (s : RagState) (p : Pipeline), s.rag_pipeline = some p →
        get_rag_pipeline w s = (.ok p, s)) ∧
    (∀ (w : RagWorld) (store : Store) (p : Pipeline),
        pinecone_config w.pineconeKey w.mkStore "quickstart" "default" 768 "cosine" =
          .ok store →
        w.createRagPipeline store = .ok p →
        w.warmUp p = .ok () →
        get_rag_pipeline w initState = (.ok p, ⟨some p, some store, 1, 0⟩)) ∧
    (∀ ws : List RagWorld, (run_get_calls ws initState).constructions ≤ 1) ∧
    (∀ (w : QueryWorld) (s : RagState) (q : String) (p : Pipeline),
        s.rag_pipeline = some p → ((get_result w s q).2).rag_pipeline = some p) := by
  refine ⟨get_rag_pipeline_cached, ?_, ?_, ?_⟩
  · intro w store p hpc hcr hwu
    simp [get_rag_pipeline, initState, hpc, hcr, hwu]
  · intro ws
    exact (run_get_calls_inv ws initState ⟨by decide, fun _ => rfl⟩).1
  · intro w s q p h
    unfold get_result
    split
    · exact h
    · rcases hb : get_result_body w s q with ⟨r, s1⟩
      have hs1 : s1 = { s with runs := s.runs + 1 } := by
        have hsnd := get_result_body_cached_snd w s q p h
        rw [hb] at hsnd
        exact hsnd
      cases r <;> simp [hs1, h]

/-- Witness for C2: a concrete first call performs the construction and a
concrete second call hits the cache, so two calls complete one
construction. -/
theorem rag_pipeline_constructed_at_most_once_witness :
    get_rag_pipeline okRagWorld initState = (.ok pipe0, ⟨some pipe0, some store0, 1, 0⟩) ∧
    (run_get_calls [okRagWorld, okRagWorld] initState).constructions ≤ 1 ∧
    get_rag_pipeline okRagWorld readyState = (.ok pipe0, readyState) := by
  exact ⟨rag_pipeline_constructed_at_most_once.2.1 okRagWorld store0 pipe0 rfl rfl rfl,
         rag_pipeline_constructed_at_most_once.2.2.1 [okRagWorld, okRagWorld],
         rag_pipeline_constructed_at_most_once.1 okRagWorld readyState pipe0 rfl⟩

/-- C4: a question that is empty or whitespace-only makes get_result return
the fixed guidance string with the module state untouched: no store is
resolved, no pipeline is constructed or run, and the answer is the same for
every external world. -/
theorem empty_question_short_circuits (w : QueryWorld) (s : RagState) (q : String)
    (h : pyStrip q = "") :
    get_result w s q = (.ok "Please provide a valid question.", s) := by
  simp [get_result, h]

/-- Witness for C4: the three-space question under a world whose pipeline
run would fail is answered by the guidance string, leaving the initial state
uninitialized. -/
theorem empty_question_short_circuits_witness :
    get_result (constQueryWorld (.error (.external "down"))) initState "   " =
      (.ok "Please provide a valid question.", initState) :=
  empty_question_short_circuits (constQueryWorld (.error (.external "down"))) initState
    "   " (by decide)

/-- C5: when the credential is unset or empty, pinecone_config raises
ValueError for every combination of its arguments and for every behaviour of
the external store constructor, so no store is constructed and no network
call is attempted. -/
theorem missing_credential_fails_fast (key : Option String)
    (mkStore : StoreArgs → Except Err Store) (index_name namespc : String)
    (dimension : Nat) (metric : String) (h : getenvTruthy key = false) :
    pinecone_config key mkStore index_name namespc dimension metric =
      .error (.valueError
        "PINECONE_API_KEY not found. Please set it in your .env file or environment variables.") := by
  simp [pinecone_config, h]

/-- Witness for C5: with the variable unset and a constructor that would
succeed, pinecone_config still raises the ValueError at the default
arguments. -/
theorem missing_credential_fails_fast_witness :
    pinecone_config none (fun _ => .ok store0) "quickstart" "default" 768 "cosine" =
      .error (.valueError
        "PINECONE_API_KEY not found. Please set it in your .env file or environment variables.") :=
  missing_credential_fails_fast none (fun _ => .ok store0) "quickstart" "default" 768
    "cosine" rfl

/-- C6: when the store resolves but the source path is neither an existing
file nor an existing directory, ingest_documents raises FileNotFoundError
rather than returning an empty or success result. -/
theorem missing_path_not_found (w : IngestWorld) (st : Store)
    (hk : pinecone_config w.pineconeKey w.mkStore "quickstart" "default" 768 "cosine" =
      .ok st)
    (hf : w.source.isFile = false) (hd : w.source.isDir = false) :
    ingest_documents w =
      .error (.fileNotFoundError ("Source path not found: " ++ w.source.pathStr)) := by
  simp [ingest_documents, loadStage, hk, hf, hd]

/-- Witness for C6: a concrete world with a valid credential and a
nonexistent path fails with the not-found error. -/
theorem missing_path_not_found_witness :
    ingest_documents missingPathWorld =
      .error (.fileNotFoundError "Source path not found: /nonexistent/path") :=
  missing_path_not_found missingPathWorld store0 rfl rfl rfl

/-- C9: ingest_documents resolves the vector store before validating
source_path, so with the credential absent it raises the configuration
ValueError whatever the source path looks like. -/
theorem ingest_checks_credential_first (w : IngestWorld)
    (h : getenvTruthy w.pineconeKey = false) :
    ingest_documents w =
      .error (.valueError
        "PINECONE_API_KEY not found. Please set it in your .env file or environment variables.") := by
  simp [ingest_documents, pinecone_config, h]

/-- Witness for C9: with the credential unset and a source path that does
not even exist, ingest_documents reports the missing credential, not the
missing path. -/
theorem ingest_checks_credential_first_witness :
    ingest_documents noKeyWorld =
      .error (.valueError
        "PINECONE_API_KEY not found. Please set it in your .env file or environment variables.") :=
  ingest_checks_credential_first noKeyWorld rfl

/-- C10: when the writer stage output has no "documents_written" key, the
success result of ingest_documents reports the number of loaded input
documents, not the number of chunks written. -/
theorem ingest_count_defaults_to_input_length (w : IngestWorld) (st : Store)
    (docs : List Document) (res : IngestRunResult)
    (hk : pinecone_config w.pineconeKey w.mkStore "quickstart" "default" 768 "cosine" =
      .ok st)
    (hl : loadStage w = .ok docs)
    (hne : docs.isEmpty = false)
    (hw : w.warmUp = .ok ())
    (hr : w.runPipeline docs = .ok res)
    (hwr : List.lookup "documents_written" ((List.lookup "writer" res).getD []) = none) :
    ingest_documents w =
      .ok ⟨"success", "Ingested " ++ toString docs.length ++ " document chunks.",
           docs.length⟩ := by
  simp [ingest_documents, hk, hl, hne, hw, hr, hwr]

/-- Witness for C10: one loaded document, a writer output without the count
key, and a reported count of 1 even though the pipeline may have written a
different number of chunks. -/
theorem ingest_count_defaults_to_input_length_witness :
    ingest_documents noCountWorld =
      .ok ⟨"success", "Ingested 1 document chunks.", 1⟩ :=
  ingest_count_defaults_to_input_length noCountWorld store0
    [⟨"hello world", [("source", "/data/a.txt"), ("filename", "a.txt")]⟩]
    [("writer", [])] rfl rfl rfl rfl rfl rfl

/-- C3 (amended): an exception raised while running the ingestion pipeline
propagates to the caller of ingest_documents unchanged; no translation into
a stage-identifying error is performed. -/
theorem ingest_stage_error_propagates_unchanged (w : IngestWorld) (st : Store)
    (docs : List Document) (e : Err)
    (hk : pinecone_config w.pineconeKey w.mkStore "quickstart" "default" 768 "cosine" =
      .ok st)
    (hl : loadStage w = .ok docs)
    (hne : docs.isEmpty = false)
    (hw : w.warmUp = .ok ())
    (hr : w.runPipeline docs = .error e) :
    ingest_documents w = .error e := by
  simp [ingest_documents, hk, hl, hne, hw, hr]

/-- Witness for the amended C3: a concrete run failure surfaces unchanged. -/
theorem ingest_stage_error_propagates_unchanged_witness :
    ingest_documents stageFailWorld = .error (.external "boom") :=
  ingest_stage_error_propagates_unchanged stageFailWorld store0
    [⟨"hello world", [("source", "/data/a.txt"), ("filename", "a.txt")]⟩]
    (.external "boom") rfl rfl rfl rfl rfl

/-- Counterexample to C3 as stated: in a world where the pipeline run raises
a generic exception, ingest_documents surfaces that exception as-is, and the
surfaced error is not a stage-identifying IngestionError. -/
theorem ingest_stage_error_not_tagged :
    ingest_documents stageFailWorld = .error (.external "boom") ∧
    Err.identifiesFailedStage (.external "boom") = false := by
  constructor
  · rfl
  · rfl

/-- A directory entry whose load raises contributes no documents: the
exception is caught inside the loop body. -/
lemma loadEntry_of_fails (ftl : List String) (e : FileEntry)
    (h : entryLoadFails e = true) : loadEntry ftl e = [] := by
  unfold entryLoadFails at h
  rw [Bool.or_eq_true, Bool.and_eq_true, Bool.and_eq_true] at h
  rcases h with ⟨htxt, hrt⟩ | ⟨hpdf, hpd⟩
  · rcases hr : e.readText with er | v
    · simp [loadEntry, htxt, hr]
    · rw [hr] at hrt
      simp [Except.isOk, Except.toBool] at hrt
  · have hne : ((pyLower e.suffix) == ".txt") = false := by
      rcases hb : (pyLower e.suffix) == ".txt" with _ | _
      · rfl
      · rw [eq_of_beq hb] at hpdf
        simp at hpdf
    rcases hp : e.pdfDocs with ep | vp
    · simp [loadEntry, hne, hpdf, hp]
    · rw [hp] at hpd
      simp [Except.isOk, Except.toBool] at hpd

/-- C7: load_documents_from_directory over an existing directory is the
concatenation of the independent per-entry loads; an entry that is not a
file with an allowed extension contributes nothing; and an entry whose load
raises is caught and removed from the batch without affecting the loads of
the entries before and after it. -/
theorem directory_loader_filters_and_isolates :
    (∀ (path : String) (entries : List FileEntry) (ftl : List String),
        load_documents_from_directory path true entries (some ftl) =
          .ok ((entries.map (loadEntry ftl)).flatten)) ∧
    (∀ (ftl : List String) (e : FileEntry),
        (e.isFile && ftl.contains (pyLower e.suffix)) = false → loadEntry ftl e = []) ∧
    (∀ (ftl : List String) (path : String) (xs ys : List FileEntry) (e : FileEntry),
        entryLoadFails e = true →
        load_documents_from_directory path true (xs ++ e :: ys) (some ftl) =
          load_documents_from_directory path true (xs ++ ys) (some ftl)) := by
  refine ⟨?_, ?_, ?_⟩
  · intro path entries ftl
    rfl
  · intro ftl e h
    unfold loadEntry
    rw [h]
    rfl
  · intro ftl path xs ys e h
    simp [load_documents_from_directory, loadEntry_of_fails ftl e h]

/-- Witness for C7: in a directory holding a loadable .txt file, a .txt file
whose read raises, and a .md file, the loader returns only the document of
the loadable .txt file, and dropping the raising file changes nothing. -/
theorem directory_loader_filters_and_isolates_witness :
    loadEntry [".txt", ".pdf"] badMd = [] ∧
    load_documents_from_directory "/d" true [goodTxt, failTxt, badMd]
        (some [".txt", ".pdf"]) =
      load_documents_from_directory "/d" true [goodTxt, badMd]
        (some [".txt", ".pdf"]) ∧
    load_documents_from_directory "/d" true [goodTxt, failTxt, badMd]
        (some [".txt", ".pdf"]) =
      .ok [⟨"alpha", [("source", "/d/a.txt"), ("filename", "a.txt")]⟩] := by
  refine ⟨directory_loader_filters_and_isolates.2.1 [".txt", ".pdf"] badMd (by decide),
          directory_loader_filters_and_isolates.2.2 [".txt", ".pdf"] "/d" [goodTxt]
            [badMd] failTxt (by decide), ?_⟩
  have h := directory_loader_filters_and_isolates.1 "/d" [goodTxt, failTxt, badMd]
    [".txt", ".pdf"]
  rw [h]
  decide

/-- C8: when the pipeline run succeeds but the generation stage returns an
empty reply list, get_result returns the fixed fallback string, which
differs from the error string produced for every caught exception and from
the malformed-result error string. -/
theorem empty_replies_fixed_fallback (w : QueryWorld) (s : RagState) (q : String)
    (p : Pipeline) (res : QueryRunResult) (gen : List (String × List String))
    (hq : (q == "" || pyStrip q == "") = false)
    (hp : s.rag_pipeline = some p)
    (hr : w.run p q = .ok res)
    (hg : List.lookup "generator" res = some gen)
    (hrep : (List.lookup "replies" gen).getD [] = []) :
    get_result w s q =
      (.ok "I couldn't generate an answer. Please try again.",
       { s with runs := s.runs + 1 }) ∧
    (∀ m : String,
        "I couldn't generate an answer. Please try again." ≠ "An error occurred: " ++ m) ∧
    "I couldn't generate an answer. Please try again." ≠
      "An error occurred while processing your question." := by
  refine ⟨?_, ?_, by decide⟩
  · have hres : res.isEmpty = false := by
      cases res with
      | nil => simp at hg
      | cons a tl => rfl
    unfold get_result get_result_body
    rw [hq, get_rag_pipeline_cached w.rag s p hp]
    simp [hr, hres, hg, hrep]
  · intro m hm
    have hd := congrArg String.data hm
    rw [String.data_append] at hd
    simp at hd

/-- Witness for C8: with a ready pipeline and a run whose generator output
holds an empty reply list, the fixed fallback is returned. -/
theorem empty_replies_fixed_fallback_witness :
    get_result (constQueryWorld (.ok [("generator", [("replies", [])])])) readyState
        "What is this?" =
      (.ok "I couldn't generate an answer. Please try again.",
       { readyState with runs := readyState.runs + 1 }) :=
  (empty_replies_fixed_fallback (constQueryWorld (.ok [("generator", [("replies", [])])]))
    readyState "What is this?" pipe0 [("generator", [("replies", [])])] [("replies", [])]
    (by decide) rfl rfl rfl rfl).1

end QASystem
